import Mathlib

/-!
Verification of the PoseEditor annotation-workspace engine.

Shallow embedding of the Python sources:
  src/poseeditor/models.py       (Keypoint, PoseData, serialization)
  src/poseeditor/undo.py         (KeypointChangeCommand, UndoStack)
  src/poseeditor/widgets/canvas.py (coordinate mapping, wheel zoom)
  src/poseeditor/main_window.py  (validation gate, navigation, triage)

Python floats are modelled as rationals so that coordinate arithmetic is
exact; Python ints as Int; JSON dictionaries as structures with Option
fields for keys that may be absent.
-/

namespace PoseEditor

/-- Embedding of models.Keypoint: a named landmark with coordinates and a
visibility flag (0 occluded, 1 visible in the current scheme). -/
structure Keypoint where
  name : String
  x : ℚ
  y : ℚ
  visibility : Int
  deriving DecidableEq

/-- The fixed 17-element COCO landmark name list PoseData.KEYPOINT_NAMES. -/
def KEYPOINT_NAMES : List String :=
  ["nose", "left_eye", "right_eye", "left_ear", "right_ear",
   "left_shoulder", "right_shoulder", "left_elbow", "right_elbow",
   "left_wrist", "right_wrist", "left_hip", "right_hip",
   "left_knee", "right_knee", "left_ankle", "right_ankle"]

/-- Embedding of models.PoseData: the mutable fields of one pose record. -/
structure PoseData where
  keypoints : List Keypoint
  raw_id : Int
  raw_scores : List ℚ
  novelty : Int
  environment_interaction : Int
  person_fit : Int
  skip_reason : String
  score : Int
  deriving DecidableEq

/-- PoseData._init_keypoints: one default keypoint per fixed name. -/
def init_keypoints : List Keypoint :=
  KEYPOINT_NAMES.map (fun n => { name := n, x := 0, y := 0, visibility := 0 })

/-- PoseData.__init__: the freshly constructed record. -/
def PoseData.init : PoseData :=
  { keypoints := init_keypoints
    raw_id := 0
    raw_scores := []
    novelty := -1
    environment_interaction := -1
    person_fit := -1
    skip_reason := ""
    score := -1 }

/-- One entry of the legacy dict-style keypoint list
(keys name, x, y, visibility). -/
structure KeypointDict where
  name : String
  x : ℚ
  y : ℚ
  visibility : Int
  deriving DecidableEq

/-- Keypoint.from_dict: the field values are copied verbatim. -/
def Keypoint.from_dict (d : KeypointDict) : Keypoint :=
  { name := d.name, x := d.x, y := d.y, visibility := d.visibility }

/-- The possible shapes of the JSON value under the key keypoints:
the key may be absent, hold a COCO-style list of [x, y] pairs, or hold
the legacy list of per-keypoint dicts.  (In from_dict an empty list in
either shape behaves exactly like an absent key, because the branch
tests check that the list is non-empty.) -/
inductive KpsField where
  | absent : KpsField
  | coco (kps : List (ℚ × ℚ)) : KpsField
  | legacy (kps : List KeypointDict) : KpsField
  deriving DecidableEq

/-- A JSON object as consumed by PoseData.from_dict and produced by
PoseData.to_dict; Option none means the key is absent. -/
structure AnnDict where
  id : Option Int
  keypoints : KpsField
  scores : Option (List ℚ)
  visibility : Option (List Int)
  novelty : Option Int
  environment_interaction : Option Int
  environment_fit : Option Int
  person_fit : Option Int
  skip_reason : Option String
  score : Option Int
  deriving DecidableEq

/-- PoseData.to_dict: COCO-style serialization.  The scores key falls
back to a zero list of the keypoint count when raw_scores is empty; the
keys environment_fit and score are never written. -/
def PoseData.to_dict (p : PoseData) : AnnDict :=
  { id := some p.raw_id
    keypoints := KpsField.coco (p.keypoints.map (fun kp => (kp.x, kp.y)))
    scores := some (if p.raw_scores.isEmpty
      then List.replicate p.keypoints.length 0 else p.raw_scores)
    visibility := some (p.keypoints.map (fun kp => kp.visibility))
    novelty := some p.novelty
    environment_interaction := some p.environment_interaction
    environment_fit := none
    person_fit := some p.person_fit
    skip_reason := some p.skip_reason
    score := none }

/-- The body of the COCO loop of PoseData.from_dict for the keypoint at
index i: coordinates are taken from the i-th [x, y] pair when present;
visibility prefers the explicit visibility list, else falls back to the
0.3 score threshold, else keeps the default. -/
def apply_coco_kp (i : Nat) (kp : Keypoint) (raw_kps : List (ℚ × ℚ))
    (vis : List Int) (scs : List ℚ) : Keypoint :=
  let kp1 := if i < raw_kps.length
    then { kp with x := (raw_kps.getD i (0, 0)).1, y := (raw_kps.getD i (0, 0)).2 }
    else kp
  if i < vis.length then { kp1 with visibility := vis.getD i 0 }
  else if i < scs.length ∧ scs.getD i 0 > 3 / 10 then { kp1 with visibility := 1 }
  else kp1

/-- PoseData.from_dict: read score fields with their defaults, then fill
the 17 default keypoints from whichever keypoint shape the input holds.
The legacy branch replaces whole keypoints by Keypoint.from_dict, the
COCO branch also reads id and scores as raw provenance. -/
def PoseData.from_dict (data : AnnDict) : PoseData :=
  let pose : PoseData :=
    { PoseData.init with
      novelty := data.novelty.getD (-1)
      environment_interaction :=
        data.environment_interaction.getD (data.environment_fit.getD (-1))
      person_fit := data.person_fit.getD (-1)
      skip_reason := data.skip_reason.getD ""
      score := data.score.getD (-1) }
  match data.keypoints with
  | KpsField.coco raw_kps =>
    if raw_kps.isEmpty then pose
    else
      let raw_scores := data.scores.getD []
      let vis := data.visibility.getD []
      { pose with
        raw_id := data.id.getD 0
        raw_scores := raw_scores
        keypoints := pose.keypoints.mapIdx
          (fun i kp => apply_coco_kp i kp raw_kps vis raw_scores) }
  | KpsField.legacy raw_kps =>
    if raw_kps.isEmpty then pose
    else
      { pose with
        keypoints := pose.keypoints.mapIdx (fun i kp =>
          if i < raw_kps.length
          then Keypoint.from_dict (raw_kps.getD i { name := "", x := 0, y := 0, visibility := 0 })
          else kp) }
  | KpsField.absent => pose

/-- Embedding of undo.KeypointChangeCommand: an immutable undo unit
holding the edited index plus before/after keypoint snapshots. -/
structure KeypointChangeCommand where
  keypoint_index : Nat
  old_state : Keypoint
  new_state : Keypoint
  deriving DecidableEq

/-- KeypointChangeCommand._update_keypoint: overwrite x, y and
visibility of the keypoint at the stored index with those of the given
snapshot; the name of the in-place keypoint is untouched.  (Python
raises IndexError on an out-of-range index; that case is modelled as a
no-op and excluded by the validity hypotheses of the theorems.) -/
def update_keypoint (p : PoseData) (idx : Nat) (st : Keypoint) : PoseData :=
  match p.keypoints[idx]? with
  | some kp =>
    { p with keypoints := p.keypoints.set idx { kp with x := st.x, y := st.y, visibility := st.visibility } }
  | none => p

/-- KeypointChangeCommand.undo applies the before snapshot. -/
def KeypointChangeCommand.applyUndo (c : KeypointChangeCommand) (p : PoseData) : PoseData :=
  update_keypoint p c.keypoint_index c.old_state

/-- KeypointChangeCommand.redo applies the after snapshot. -/
def KeypointChangeCommand.applyRedo (c : KeypointChangeCommand) (p : PoseData) : PoseData :=
  update_keypoint p c.keypoint_index c.new_state

/-- Embedding of undo.UndoStack together with the one live PoseData the
stacked commands mutate.  Python appends and pops at the end of a list;
here the head of each list is the top of the stack. -/
structure UndoStack where
  pose : PoseData
  undo_stack : List KeypointChangeCommand
  redo_stack : List KeypointChangeCommand
  deriving DecidableEq

/-- UndoStack.push: stack the command and clear the redo stack. -/
def UndoStack.push (s : UndoStack) (c : KeypointChangeCommand) : UndoStack :=
  { s with undo_stack := c :: s.undo_stack, redo_stack := [] }

/-- UndoStack.undo: on an empty stack report failure and change
nothing; otherwise pop, apply the before state, stack onto redo. -/
def UndoStack.applyUndo (s : UndoStack) : UndoStack × Bool :=
  match s.undo_stack with
  | [] => (s, false)
  | c :: rest =>
    ({ pose := c.applyUndo s.pose
       undo_stack := rest
       redo_stack := c :: s.redo_stack }, true)

/-- UndoStack.redo: on an empty redo stack report failure and change
nothing; otherwise pop, apply the after state, stack onto undo. -/
def UndoStack.applyRedo (s : UndoStack) : UndoStack × Bool :=
  match s.redo_stack with
  | [] => (s, false)
  | c :: rest =>
    ({ pose := c.applyRedo s.pose
       undo_stack := c :: s.undo_stack
       redo_stack := rest }, true)

/-- One interactive edit as canvas._push_keypoint_change performs it:
snapshot the keypoint (kp.copy() before the drag), mutate it to the new
state, and push the command built from both snapshots. -/
def perform_edit (s : UndoStack) (idx : Nat) (new_state : Keypoint) : UndoStack :=
  let old_state := s.pose.keypoints.getD idx { name := "", x := 0, y := 0, visibility := 0 }
  let cmd : KeypointChangeCommand :=
    { keypoint_index := idx, old_state := old_state, new_state := new_state }
  UndoStack.push { s with pose := update_keypoint s.pose idx new_state } cmd

/-- A sequence of interactive edits, applied left to right. -/
def perform_edits (s : UndoStack) : List (Nat × Keypoint) → UndoStack
  | [] => s
  | (idx, st) :: es => perform_edits (perform_edit s idx st) es

/-- Calling undo n times. -/
def undoN (s : UndoStack) : Nat → UndoStack
  | 0 => s
  | n + 1 => ((undoN s n).applyUndo).1

/-- Calling redo n times (the n-fold iterate, unfolded from the first
call). -/
def redoN (s : UndoStack) : Nat → UndoStack
  | 0 => s
  | n + 1 => redoN ((s.applyRedo).1) n

/-- The pose after a sequence of edits (specification helper). -/
def final_pose (p : PoseData) : List (Nat × Keypoint) → PoseData
  | [] => p
  | (idx, st) :: es => final_pose (update_keypoint p idx st) es

/-- The commands a sequence of edits pushes, in push order
(specification helper). -/
def cmds_of (p : PoseData) : List (Nat × Keypoint) → List KeypointChangeCommand
  | [] => []
  | (idx, st) :: es =>
    { keypoint_index := idx
      old_state := p.keypoints.getD idx { name := "", x := 0, y := 0, visibility := 0 }
      new_state := st } :: cmds_of (update_keypoint p idx st) es

/-- Embedding of the pan/zoom state of widgets.canvas.Canvas. -/
structure CanvasState where
  scale : ℚ
  offset : ℚ × ℚ
  deriving DecidableEq

/-- Canvas.widget_to_image: inverse affine map from view to image
coordinates. -/
def widget_to_image (c : CanvasState) (p : ℚ × ℚ) : ℚ × ℚ :=
  ((p.1 - c.offset.1) / c.scale, (p.2 - c.offset.2) / c.scale)

/-- Canvas.wheelEvent after the scale factor has been selected from the
wheel direction (1.1 for zoom-in ticks, 0.9 for zoom-out ticks): the new
scale is applied, and the offset adjusted to keep the image point under
the mouse fixed, only when the new scale lies within [0.1, 20.0];
otherwise the event leaves the state unchanged. -/
def wheel_zoom (c : CanvasState) (mouse : ℚ × ℚ) (factor : ℚ) : CanvasState :=
  let image_pos_before := widget_to_image c mouse
  let new_scale := c.scale * factor
  if 1 / 10 ≤ new_scale ∧ new_scale ≤ 20 then
    { scale := new_scale
      offset := (c.offset.1 - image_pos_before.1 * (new_scale - c.scale),
                 c.offset.2 - image_pos_before.2 * (new_scale - c.scale)) }
  else c

/-- PoseEditor.has_complete_scores: all three scores are non-negative. -/
def has_complete_scores (pose : PoseData) : Bool :=
  0 ≤ pose.novelty ∧ 0 ≤ pose.environment_interaction ∧ 0 ≤ pose.person_fit

/-- PoseEditor.validate_before_navigate: pass when skip_reason is
non-empty (truthy), else pass exactly when all three scores are set. -/
def validate_before_navigate (pose : PoseData) : Bool :=
  if pose.skip_reason = "" then has_complete_scores pose else true

/-- The navigation-relevant state of the main window: the file list,
the current index and the live pose record of the canvas. -/
structure EditorState where
  image_files : List String
  current_index : Nat
  pose : PoseData

/-- The current index after PoseEditor.next_image: advance only when a
next image exists and validation passes; a refused attempt returns
without touching the index. -/
def next_image_index (s : EditorState) : Nat :=
  if s.image_files ≠ [] ∧ s.current_index < s.image_files.length - 1 then
    if validate_before_navigate s.pose then s.current_index + 1 else s.current_index
  else s.current_index

/-- Where the current image file lives: its original path, or an
ignore/<category> bucket. -/
inductive ImageLoc where
  | origin : ImageLoc
  | ignore (category : String) : ImageLoc
  deriving DecidableEq

/-- The state move_to_ignore_category observes and mutates: the live
pose record, the JSON file contents at the image's original paired
path, the image location, and the in-memory file list with its index. -/
structure TriageState where
  pose : PoseData
  ann_file : Option (List AnnDict)
  image_loc : ImageLoc
  image_files : List String
  current_index : Nat
  deriving DecidableEq

/-- PoseEditor.move_to_ignore_category: set skip_reason (custom reason
when given, else the category), write the one-record JSON array, move
only the image into ignore/<category>/, drop the list entry and clamp
the index.  File operations may raise; a raise inside the try block
reports failure and stops, keeping every step already performed.  The
two Booleans inject a failure into the JSON write or the image move. -/
def move_to_ignore_category (s : TriageState) (category custom_reason : String)
    (write_fails move_fails : Bool) : TriageState × Bool :=
  let reason_text := if custom_reason ≠ "" then custom_reason else category
  let s1 := { s with pose := { s.pose with skip_reason := reason_text } }
  if write_fails then (s1, false)
  else
    let s2 := { s1 with ann_file := some [s1.pose.to_dict] }
    if move_fails then (s2, false)
    else
      let s3 := { s2 with image_loc := ImageLoc.ignore category }
      let files := s3.image_files.eraseIdx s3.current_index
      let idx := if files.isEmpty then 0
        else if files.length ≤ s3.current_index then files.length - 1
        else s3.current_index
      ({ s3 with image_files := files, current_index := idx }, true)

/-- The clamp the specification describes for the zoom scale, written
from the words of the spec for comparison with the code. -/
def spec_clamp (x lo hi : ℚ) : ℚ := min (max x lo) hi

/-- A throwaway Keypoint used as the default of total list lookups; no
theorem depends on its value at an in-range index. -/
def kp_default : Keypoint := { name := "", x := 0, y := 0, visibility := 0 }

/-- A throwaway KeypointDict default, in the same role. -/
def kpd_default : KeypointDict := { name := "", x := 0, y := 0, visibility := 0 }

/-- The JSON object with every key absent. -/
def empty_dict : AnnDict :=
  { id := none, keypoints := KpsField.absent, scores := none, visibility := none
    novelty := none, environment_interaction := none, environment_fit := none
    person_fit := none, skip_reason := none, score := none }

/-- The number of leading keypoint slots the input can influence: past
this index from_dict leaves the default keypoint untouched. -/
def supplied_bound (d : AnnDict) : Nat :=
  match d.keypoints with
  | KpsField.absent => 0
  | KpsField.coco kps =>
    if kps.isEmpty then 0
    else max kps.length (max (d.visibility.getD []).length (d.scores.getD []).length)
  | KpsField.legacy kps => kps.length

/-- A legacy-format input whose one entry carries the old 3-way
visibility value 2 (partially occluded). -/
def legacy_vis2_dict : AnnDict :=
  { empty_dict with
    keypoints := KpsField.legacy [{ name := "nose", x := 12, y := 8, visibility := 2 }] }

/-- A legacy-format input whose one entry carries a name that is not
the first fixed landmark name. -/
def legacy_wrong_name_dict : AnnDict :=
  { empty_dict with
    keypoints := KpsField.legacy [{ name := "tail", x := 3, y := 4, visibility := 1 }] }

/-- A legacy-format input with one well-formed nose entry. -/
def one_nose_legacy_dict : AnnDict :=
  { empty_dict with
    keypoints := KpsField.legacy [{ name := "nose", x := 1, y := 2, visibility := 1 }] }

/-- A concrete record with all three scores set. -/
def scored_pose : PoseData :=
  { PoseData.init with novelty := 3, environment_interaction := 2, person_fit := 5 }

/-- A concrete workspace state before a triage: untriaged pose, its
serialized annotation on disk, the image at its original path. -/
def pre_triage_state : TriageState :=
  { pose := PoseData.init
    ann_file := some [PoseData.init.to_dict]
    image_loc := ImageLoc.origin
    image_files := ["a.jpg", "b.jpg"]
    current_index := 0 }

section ListHelpers

variable {α β : Type}

lemma getD_of_lt (l : List α) (i : Nat) (d : α) (h : i < l.length) :
    l.getD i d = l[i] := by
  simp [List.getD_eq_getElem?_getD, List.getElem?_eq_getElem h]

lemma getD_of_ge (l : List α) (i : Nat) (d : α) (h : ¬ i < l.length) :
    l.getD i d = d := by
  simp [List.getD_eq_getElem?_getD, List.getElem?_eq_none (Nat.le_of_not_lt h)]

lemma getD_map_of_lt (f : α → β) (l : List α) (i : Nat) (d : β) (h : i < l.length) :
    (l.map f).getD i d = f l[i] := by
  simp [List.getD_eq_getElem?_getD, List.getElem?_map, List.getElem?_eq_getElem h]

lemma getElem?_mapIdx (l : List α) (f : Nat → α → β) (i : Nat) (h : i < l.length) :
    (l.mapIdx f)[i]? = some (f i l[i]) := by
  have h2 : i < (l.mapIdx f).length := by simpa [List.length_mapIdx] using h
  rw [List.getElem?_eq_getElem h2]
  have h3 := List.get_mapIdx l f i h h2
  simp only [List.get_eq_getElem] at h3
  rw [h3]

lemma set_self (l : List α) (i : Nat) (h : i < l.length) : l.set i l[i] = l := by
  apply List.ext_getElem
  · simp
  · intro n h1 h2
    rcases eq_or_ne n i with rfl | hne
    · simp
    · rw [List.getElem_set_ne (Ne.symm hne)]

end ListHelpers

section FromDictLemmas

lemma init_keypoints_length : init_keypoints.length = 17 := rfl

/-- The scalar score fields of from_dict do not depend on the keypoint
branch taken. -/
lemma from_dict_fields (d : AnnDict) :
    (PoseData.from_dict d).novelty = d.novelty.getD (-1)
    ∧ (PoseData.from_dict d).environment_interaction
        = d.environment_interaction.getD (d.environment_fit.getD (-1))
    ∧ (PoseData.from_dict d).person_fit = d.person_fit.getD (-1)
    ∧ (PoseData.from_dict d).skip_reason = d.skip_reason.getD "" := by
  rcases d with ⟨id, kf, scs, vis, nov, env, envf, pf, sk, sc⟩
  cases kf <;> refine ⟨?_, ?_, ?_, ?_⟩ <;>
    simp only [PoseData.from_dict] <;>
    first
      | rfl
      | (split <;> rfl)

lemma from_dict_length (d : AnnDict) :
    (PoseData.from_dict d).keypoints.length = 17 := by
  rcases d with ⟨id, kf, scs, vis, nov, env, envf, pf, sk, sc⟩
  cases kf <;> simp only [PoseData.from_dict] <;>
    first
      | exact init_keypoints_length
      | (split <;> simp [List.length_mapIdx, PoseData.init, init_keypoints_length])

/-- In the COCO branch the raw provenance fields are read from the id
and scores keys. -/
lemma from_dict_coco_raw (d : AnnDict) (raw_kps : List (ℚ × ℚ))
    (hk : d.keypoints = KpsField.coco raw_kps) (hne : raw_kps.isEmpty = false) :
    (PoseData.from_dict d).raw_id = d.id.getD 0
    ∧ (PoseData.from_dict d).raw_scores = d.scores.getD [] := by
  rcases d with ⟨id, kf, scs, vis, nov, env, envf, pf, sk, sc⟩
  simp only [] at hk
  subst hk
  simp only [PoseData.from_dict]
  rw [if_neg (by simp [hne])]
  exact ⟨rfl, rfl⟩

/-- Pointwise description of the keypoints produced by the COCO branch. -/
lemma from_dict_coco_getElem (d : AnnDict) (raw_kps : List (ℚ × ℚ))
    (hk : d.keypoints = KpsField.coco raw_kps) (hne : raw_kps.isEmpty = false)
    (i : Nat) (hi : i < 17) :
    (PoseData.from_dict d).keypoints[i]?
      = some (apply_coco_kp i (init_keypoints.getD i kp_default) raw_kps
          (d.visibility.getD []) (d.scores.getD [])) := by
  have hinit : i < init_keypoints.length := by rw [init_keypoints_length]; exact hi
  rcases d with ⟨id, kf, scs, vis, nov, env, envf, pf, sk, sc⟩
  simp only [] at hk
  subst hk
  simp only [PoseData.from_dict]
  rw [if_neg (by simp [hne])]
  have hinit2 : i < PoseData.init.keypoints.length := hinit
  simp only []
  rw [getElem?_mapIdx _ _ _ hinit2, getD_of_lt _ _ _ hinit]
  rfl

/-- Pointwise description of the keypoints produced by the legacy
branch: supplied entries are replaced via Keypoint.from_dict, the rest
keep their defaults. -/
lemma from_dict_legacy_getElem (d : AnnDict) (raw : List KeypointDict)
    (hk : d.keypoints = KpsField.legacy raw) (hne : raw.isEmpty = false)
    (i : Nat) (hi : i < 17) :
    (PoseData.from_dict d).keypoints[i]?
      = some (if i < raw.length then Keypoint.from_dict (raw.getD i kpd_default)
          else init_keypoints.getD i kp_default) := by
  have hinit : i < init_keypoints.length := by rw [init_keypoints_length]; exact hi
  rcases d with ⟨id, kf, scs, vis, nov, env, envf, pf, sk, sc⟩
  simp only [] at hk
  subst hk
  simp only [PoseData.from_dict]
  rw [if_neg (by simp [hne])]
  have hinit2 : i < PoseData.init.keypoints.length := hinit
  simp only []
  rw [getElem?_mapIdx _ _ _ hinit2]
  by_cases hlt : i < raw.length
  · simp [hlt, kpd_default]
  · simp only [hlt, if_false]
    rw [getD_of_lt _ _ _ hinit]
    rfl

/-- The absent branch keeps the freshly initialized keypoints. -/
lemma from_dict_absent_keypoints (d : AnnDict) (hk : d.keypoints = KpsField.absent) :
    (PoseData.from_dict d).keypoints = init_keypoints := by
  rcases d with ⟨id, kf, scs, vis, nov, env, envf, pf, sk, sc⟩
  simp only [] at hk
  subst hk
  rfl

/-- Empty keypoint lists in either shape behave like an absent key. -/
lemma from_dict_empty_keypoints (d : AnnDict)
    (hk : d.keypoints = KpsField.coco [] ∨ d.keypoints = KpsField.legacy []) :
    (PoseData.from_dict d).keypoints = init_keypoints := by
  rcases d with ⟨id, kf, scs, vis, nov, env, envf, pf, sk, sc⟩
  rcases hk with hk | hk <;> simp only [] at hk <;> subst hk <;> rfl

/-- apply_coco_kp never changes the keypoint name. -/
lemma apply_coco_kp_name (i : Nat) (kp : Keypoint) (raw_kps : List (ℚ × ℚ))
    (vis : List Int) (scs : List ℚ) :
    (apply_coco_kp i kp raw_kps vis scs).name = kp.name := by
  unfold apply_coco_kp
  split_ifs <;> rfl

/-- Past every supplied list, apply_coco_kp is the identity. -/
lemma apply_coco_kp_of_ge (i : Nat) (kp : Keypoint) (raw_kps : List (ℚ × ℚ))
    (vis : List Int) (scs : List ℚ) (h1 : raw_kps.length ≤ i) (h2 : vis.length ≤ i)
    (h3 : scs.length ≤ i) :
    apply_coco_kp i kp raw_kps vis scs = kp := by
  unfold apply_coco_kp
  have c1 : ¬ i < raw_kps.length := by omega
  have c2 : ¬ i < vis.length := by omega
  have c3 : ¬ (i < scs.length ∧ scs.getD i 0 > 3 / 10) := fun hc => absurd hc.1 (by omega)
  rw [if_neg c1, if_neg c2, if_neg c3]

end FromDictLemmas

/-- C3.  Serialization round-trip: for every PoseData record (with its
invariant 17 keypoints), from_dict of to_dict reproduces every
keypoint's x, y and visibility, and the three score fields novelty,
environment_interaction and person_fit, exactly. -/
theorem serialization_roundtrip_c3 (p : PoseData) (h17 : p.keypoints.length = 17) :
    ((PoseData.from_dict p.to_dict).keypoints.map (fun kp => (kp.x, kp.y, kp.visibility))
        = p.keypoints.map (fun kp => (kp.x, kp.y, kp.visibility)))
    ∧ (PoseData.from_dict p.to_dict).novelty = p.novelty
    ∧ (PoseData.from_dict p.to_dict).environment_interaction = p.environment_interaction
    ∧ (PoseData.from_dict p.to_dict).person_fit = p.person_fit := by
  obtain ⟨hnov, henv, hpf, _⟩ := from_dict_fields p.to_dict
  have hkd : (p.to_dict).keypoints
      = KpsField.coco (p.keypoints.map (fun kp => (kp.x, kp.y))) := rfl
  have hne : (p.keypoints.map (fun kp => (kp.x, kp.y))).isEmpty = false := by
    cases hp : p.keypoints with
    | nil => rw [hp] at h17; simp at h17
    | cons a l => rfl
  refine ⟨?_, by rw [hnov]; rfl, by rw [henv]; rfl, by rw [hpf]; rfl⟩
  apply List.ext_getElem
  · simp [List.length_map, from_dict_length, h17]
  · intro i h1 h2
    have hi17 : i < 17 := by
      rw [List.length_map, from_dict_length] at h1
      exact h1
    have hip : i < p.keypoints.length := by omega
    rw [List.getElem_map, List.getElem_map]
    have hget := from_dict_coco_getElem p.to_dict _ hkd hne i hi17
    have hlen : i < (PoseData.from_dict p.to_dict).keypoints.length := by
      rw [from_dict_length]; exact hi17
    rw [List.getElem?_eq_getElem hlen] at hget
    rw [Option.some.inj hget]
    have hv : (p.to_dict).visibility.getD []
        = p.keypoints.map (fun kp => kp.visibility) := rfl
    unfold apply_coco_kp
    rw [hv, if_pos (by simpa [List.length_map] using hip),
      if_pos (by simpa [List.length_map] using hip),
      getD_map_of_lt _ _ _ _ hip, getD_map_of_lt _ _ _ _ hip]

/-- Counterexample for C9: serializing a record whose raw_scores is the
empty list writes a 17-entry zero score list, so parsing it back does
not restore the empty list. -/
theorem raw_scores_empty_c9_counterexample :
    (PoseData.from_dict PoseData.init.to_dict).raw_scores ≠ PoseData.init.raw_scores := by
  have hkd : PoseData.init.to_dict.keypoints
      = KpsField.coco (PoseData.init.keypoints.map (fun kp => (kp.x, kp.y))) := rfl
  have h := (from_dict_coco_raw PoseData.init.to_dict _ hkd (by rfl)).2
  rw [h]
  show List.replicate 17 (0 : ℚ) ≠ []
  simp

/-- C9 (amended).  Raw provenance round-trip: from_dict of to_dict
always restores raw_id; it restores raw_scores exactly when raw_scores
is non-empty, while an empty raw_scores comes back as the serialized
fallback of 17 zero scores. -/
theorem raw_provenance_roundtrip_c9 (p : PoseData) (h17 : p.keypoints.length = 17) :
    (PoseData.from_dict p.to_dict).raw_id = p.raw_id
    ∧ (p.raw_scores ≠ [] → (PoseData.from_dict p.to_dict).raw_scores = p.raw_scores)
    ∧ (p.raw_scores = [] →
        (PoseData.from_dict p.to_dict).raw_scores = List.replicate 17 (0 : ℚ)) := by
  have hkd : (p.to_dict).keypoints
      = KpsField.coco (p.keypoints.map (fun kp => (kp.x, kp.y))) := rfl
  have hne : (p.keypoints.map (fun kp => (kp.x, kp.y))).isEmpty = false := by
    cases hp : p.keypoints with
    | nil => rw [hp] at h17; simp at h17
    | cons a l => rfl
  obtain ⟨hid, hsc⟩ := from_dict_coco_raw p.to_dict _ hkd hne
  refine ⟨by rw [hid]; rfl, ?_, ?_⟩
  · intro h
    rw [hsc]
    show (if p.raw_scores.isEmpty then List.replicate p.keypoints.length 0
      else p.raw_scores) = p.raw_scores
    have he : p.raw_scores.isEmpty = false := by
      cases hr : p.raw_scores with
      | nil => exact absurd hr h
      | cons a l => rfl
    simp [he]
  · intro h
    rw [hsc]
    show (if p.raw_scores.isEmpty then List.replicate p.keypoints.length 0
      else p.raw_scores) = List.replicate 17 0
    rw [h, h17]
    rfl

/-- Witness for C9 at concrete records: a record with one raw score
keeps it through the round-trip, and the freshly initialized record
with empty raw_scores comes back with 17 zero scores. -/
theorem raw_provenance_roundtrip_c9_witness :
    (PoseData.from_dict ({ PoseData.init with raw_scores := [1/2] } : PoseData).to_dict).raw_scores
        = [(1 : ℚ)/2]
    ∧ (PoseData.from_dict PoseData.init.to_dict).raw_scores = List.replicate 17 (0 : ℚ) :=
  ⟨(raw_provenance_roundtrip_c9 { PoseData.init with raw_scores := [1/2] } rfl).2.1 (by simp),
   (raw_provenance_roundtrip_c9 PoseData.init rfl).2.2 rfl⟩

/-- Witness for C3 at a concrete record: a record with all three
scores set round-trips exactly. -/
theorem serialization_roundtrip_c3_witness :
    ((PoseData.from_dict scored_pose.to_dict).keypoints.map (fun kp => (kp.x, kp.y, kp.visibility))
        = scored_pose.keypoints.map (fun kp => (kp.x, kp.y, kp.visibility)))
    ∧ (PoseData.from_dict scored_pose.to_dict).novelty = scored_pose.novelty
    ∧ (PoseData.from_dict scored_pose.to_dict).environment_interaction
        = scored_pose.environment_interaction
    ∧ (PoseData.from_dict scored_pose.to_dict).person_fit = scored_pose.person_fit :=
  serialization_roundtrip_c3 scored_pose rfl

/-- C10.  The environment_interaction score is read from the key
environment_interaction; when that key is absent it falls back to the
legacy key environment_fit; when both are absent it is -1. -/
theorem environment_fit_fallback_c10 (d : AnnDict) :
    (∀ v : Int, d.environment_interaction = some v →
        (PoseData.from_dict d).environment_interaction = v)
    ∧ (d.environment_interaction = none → ∀ v : Int, d.environment_fit = some v →
        (PoseData.from_dict d).environment_interaction = v)
    ∧ (d.environment_interaction = none → d.environment_fit = none →
        (PoseData.from_dict d).environment_interaction = -1) := by
  have h := (from_dict_fields d).2.1
  refine ⟨?_, ?_, ?_⟩
  · intro v hv
    rw [h, hv]
    rfl
  · intro h0 v hv
    rw [h, h0, hv]
    rfl
  · intro h0 h1
    rw [h, h0, h1]
    rfl

/-- Witness for C10: a dict carrying only the legacy key
environment_fit parses with that value as environment_interaction. -/
theorem environment_fit_fallback_c10_witness :
    (PoseData.from_dict { empty_dict with environment_fit := some 4 }).environment_interaction
      = 4 :=
  (environment_fit_fallback_c10 { empty_dict with environment_fit := some 4 }).2.1 rfl 4 rfl

/-- Counterexample for C4: a legacy entry with the 3-way visibility
value 2 parses with visibility 2 — it is not collapsed to 0. -/
theorem legacy_visibility_c4_counterexample :
    ((PoseData.from_dict legacy_vis2_dict).keypoints.getD 0 kp_default).visibility = 2
    ∧ ((PoseData.from_dict legacy_vis2_dict).keypoints.getD 0 kp_default).visibility ≠ 0 := by
  decide

/-- C4 (amended).  Parsing a legacy dict-style annotation yields 17
keypoints; each supplied entry is taken verbatim by Keypoint.from_dict
(name, x, y and the visibility value unchanged — legacy 3-way values
are passed through, not collapsed), and slots past the supplied entries
keep their defaults. -/
theorem legacy_parse_c4 (d : AnnDict) (raw : List KeypointDict)
    (hk : d.keypoints = KpsField.legacy raw) (hne : raw ≠ []) :
    (PoseData.from_dict d).keypoints.length = 17
    ∧ (∀ i, i < 17 → i < raw.length →
        (PoseData.from_dict d).keypoints.getD i kp_default
          = Keypoint.from_dict (raw.getD i kpd_default))
    ∧ (∀ i, i < 17 → raw.length ≤ i →
        (PoseData.from_dict d).keypoints.getD i kp_default
          = init_keypoints.getD i kp_default) := by
  have hne2 : raw.isEmpty = false := by
    cases raw with
    | nil => exact absurd rfl hne
    | cons a l => rfl
  refine ⟨from_dict_length d, ?_, ?_⟩
  · intro i hi hlt
    have h := from_dict_legacy_getElem d raw hk hne2 i hi
    rw [List.getD_eq_getElem?_getD, h]
    simp [hlt]
  · intro i hi hge
    have h := from_dict_legacy_getElem d raw hk hne2 i hi
    rw [List.getD_eq_getElem?_getD, h]
    simp [Nat.not_lt.mpr hge]

/-- Witness for C4: one supplied legacy nose entry is copied verbatim
and the next slot keeps its default. -/
theorem legacy_parse_c4_witness :
    (PoseData.from_dict one_nose_legacy_dict).keypoints.length = 17
    ∧ (PoseData.from_dict one_nose_legacy_dict).keypoints.getD 0 kp_default
        = Keypoint.from_dict { name := "nose", x := 1, y := 2, visibility := 1 }
    ∧ (PoseData.from_dict one_nose_legacy_dict).keypoints.getD 1 kp_default
        = init_keypoints.getD 1 kp_default :=
  ⟨(legacy_parse_c4 one_nose_legacy_dict _ rfl (by simp)).1,
   (legacy_parse_c4 one_nose_legacy_dict _ rfl (by simp)).2.1 0 (by norm_num) (by norm_num),
   (legacy_parse_c4 one_nose_legacy_dict _ rfl (by simp)).2.2 1 (by norm_num) (by norm_num)⟩

/-- Counterexample for C6: a legacy entry carrying a non-standard name
lands in the record, so the parsed keypoint names are not the fixed
name list. -/
theorem fixed_names_c6_counterexample :
    (PoseData.from_dict legacy_wrong_name_dict).keypoints.map Keypoint.name
      ≠ KEYPOINT_NAMES := by
  decide

/-- C6 (amended).  Every record has exactly 17 keypoints, at
construction and after parsing any supported input; construction, the
COCO branch and the absent/bare branch keep the fixed name order, while
the legacy branch takes the supplied names from the input; keypoint
slots past everything the input supplies keep the default zero
coordinates and occluded visibility. -/
theorem keypoint_invariant_c6 :
    (PoseData.init.keypoints.length = 17
      ∧ PoseData.init.keypoints.map Keypoint.name = KEYPOINT_NAMES)
    ∧ (∀ d : AnnDict, (PoseData.from_dict d).keypoints.length = 17)
    ∧ (∀ d : AnnDict, ∀ raw : List (ℚ × ℚ), d.keypoints = KpsField.coco raw →
        (PoseData.from_dict d).keypoints.map Keypoint.name = KEYPOINT_NAMES)
    ∧ (∀ d : AnnDict, d.keypoints = KpsField.absent →
        (PoseData.from_dict d).keypoints.map Keypoint.name = KEYPOINT_NAMES)
    ∧ (∀ d : AnnDict, ∀ i : Nat, i < 17 → supplied_bound d ≤ i →
        (PoseData.from_dict d).keypoints.getD i kp_default
          = init_keypoints.getD i kp_default) := by
  refine ⟨⟨rfl, rfl⟩, from_dict_length, ?_, ?_, ?_⟩
  · intro d raw hk
    by_cases hre : raw.isEmpty
    · have : raw = [] := by
        cases raw with
        | nil => rfl
        | cons a l => simp at hre
      rw [from_dict_empty_keypoints d (Or.inl (this ▸ hk))]
      rfl
    · have hne : raw.isEmpty = false := by
        cases h : raw.isEmpty with
        | true => exact absurd h hre
        | false => rfl
      apply List.ext_getElem
      · simp [List.length_map, from_dict_length]
        rfl
      · intro i h1 h2
        have hi17 : i < 17 := by
          rw [List.length_map, from_dict_length] at h1
          exact h1
        rw [List.getElem_map]
        have hget := from_dict_coco_getElem d raw hk hne i hi17
        have hlen : i < (PoseData.from_dict d).keypoints.length := by
          rw [from_dict_length]; exact hi17
        rw [List.getElem?_eq_getElem hlen] at hget
        rw [Option.some.inj hget, apply_coco_kp_name,
          getD_of_lt _ _ _ (by rw [init_keypoints_length]; exact hi17)]
        unfold init_keypoints
        rw [List.getElem_map]
  · intro d hk
    rw [from_dict_absent_keypoints d hk]
    rfl
  · intro d i hi hb
    rcases hd : d.keypoints with _ | raw | raw
    · rw [from_dict_absent_keypoints d hd]
    · by_cases hre : raw.isEmpty
      · have : raw = [] := by
          cases raw with
          | nil => rfl
          | cons a l => simp at hre
        rw [from_dict_empty_keypoints d (Or.inl (this ▸ hd))]
      · have hne : raw.isEmpty = false := by
          cases h : raw.isEmpty with
          | true => exact absurd h hre
          | false => rfl
        have hbound : raw.length ≤ i ∧ (d.visibility.getD []).length ≤ i
            ∧ (d.scores.getD []).length ≤ i := by
          simp only [supplied_bound, hd] at hb
          rw [if_neg (by simp [hne])] at hb
          simp only [Nat.max_le] at hb
          exact ⟨hb.1, hb.2.1, hb.2.2⟩
        have hget := from_dict_coco_getElem d raw hd hne i hi
        rw [List.getD_eq_getElem?_getD, hget]
        rw [apply_coco_kp_of_ge i _ raw _ _ hbound.1 hbound.2.1 hbound.2.2]
        rfl
    · by_cases hre : raw.isEmpty
      · have : raw = [] := by
          cases raw with
          | nil => rfl
          | cons a l => simp at hre
        rw [from_dict_empty_keypoints d (Or.inr (this ▸ hd))]
      · have hne : raw.isEmpty = false := by
          cases h : raw.isEmpty with
          | true => exact absurd h hre
          | false => rfl
        have hbound : raw.length ≤ i := by
          simp only [supplied_bound, hd] at hb
          exact hb
        have hget := from_dict_legacy_getElem d raw hd hne i hi
        rw [List.getD_eq_getElem?_getD, hget]
        simp [Nat.not_lt.mpr hbound]

/-- C7.  Zoom anchoring: a wheel zoom step with factor 1.1 or 0.9 keeps
the image point under the mouse fixed — widget_to_image at the mouse
position is unchanged by wheel_zoom, for every starting scale and
offset (exactly, over rational arithmetic). -/
theorem zoom_anchoring_c7 (c : CanvasState) (mouse : ℚ × ℚ) (factor : ℚ)
    (_hf : factor = 11 / 10 ∨ factor = 9 / 10) :
    widget_to_image (wheel_zoom c mouse factor) mouse = widget_to_image c mouse := by
  clear _hf
  unfold wheel_zoom
  by_cases hr : 1 / 10 ≤ c.scale * factor ∧ c.scale * factor ≤ 20
  · have hs : c.scale ≠ 0 := by
      intro h0
      rw [h0, zero_mul] at hr
      exact absurd hr.1 (by norm_num)
    have hns : c.scale * factor ≠ 0 := by
      intro h0
      rw [h0] at hr
      exact absurd hr.1 (by norm_num)
    rw [if_pos hr]
    unfold widget_to_image
    refine Prod.ext ?_ ?_ <;>
      · simp only
        field_simp
        ring
  · rw [if_neg hr]

/-- Witness for C7 at a concrete state: zooming in at scale 1 with the
mouse at (5, 7) leaves the image point under the mouse unchanged. -/
theorem zoom_anchoring_c7_witness :
    widget_to_image
      (wheel_zoom { scale := 1, offset := (2, 3) } (5, 7) (11 / 10)) (5, 7)
      = widget_to_image { scale := 1, offset := (2, 3) } (5, 7) :=
  zoom_anchoring_c7 { scale := 1, offset := (2, 3) } (5, 7) (11 / 10) (Or.inl rfl)

/-- Counterexample for C8: at scale 19 a zoom-in tick would reach
20.9; the claimed clamp gives 20.0, but wheelEvent refuses the step and
keeps the scale at 19. -/
theorem zoom_clamp_c8_counterexample :
    (wheel_zoom { scale := 19, offset := (0, 0) } (0, 0) (11 / 10)).scale
      ≠ spec_clamp (19 * (11 / 10)) (1 / 10) 20 := by
  have h2 : spec_clamp (19 * (11 / 10)) (1 / 10) 20 = 20 := by
    unfold spec_clamp
    rw [max_eq_left (by norm_num), min_eq_right (by norm_num)]
  rw [h2]
  unfold wheel_zoom
  rw [if_neg (by norm_num)]
  norm_num

/-- C8 (amended).  A wheel zoom step sets the scale to scale * factor
when that product lies within [0.1, 20.0]; otherwise the step is
refused and the scale is left unchanged (it is not clamped to the
bound). -/
theorem zoom_scale_step_c8 (c : CanvasState) (mouse : ℚ × ℚ) (factor : ℚ) :
    (wheel_zoom c mouse factor).scale =
      if 1 / 10 ≤ c.scale * factor ∧ c.scale * factor ≤ 20
      then c.scale * factor else c.scale := by
  unfold wheel_zoom
  by_cases hr : 1 / 10 ≤ c.scale * factor ∧ c.scale * factor ≤ 20
  · rw [if_pos hr, if_pos hr]
  · rw [if_neg hr, if_neg hr]

/-- Witness for C6: one supplied legacy entry still yields a 17-slot
record whose sixth slot keeps its default keypoint. -/
theorem keypoint_invariant_c6_witness :
    (PoseData.from_dict one_nose_legacy_dict).keypoints.length = 17
    ∧ (PoseData.from_dict one_nose_legacy_dict).keypoints.getD 5 kp_default
        = init_keypoints.getD 5 kp_default :=
  ⟨keypoint_invariant_c6.2.1 one_nose_legacy_dict,
   keypoint_invariant_c6.2.2.2.2 one_nose_legacy_dict 5 (by norm_num) (by decide)⟩

/-- C1.  Validation gate: when any of the three scores is -1 and
skip_reason is empty, validation fails and next_image leaves the index
unchanged; conversely when skip_reason is non-empty or all three scores
are set, validation passes and (with a next image available) next_image
advances the index by one. -/
theorem validation_gate_c1 (s : EditorState) :
    ((s.pose.novelty = -1 ∨ s.pose.environment_interaction = -1 ∨ s.pose.person_fit = -1)
        ∧ s.pose.skip_reason = "" →
      validate_before_navigate s.pose = false ∧ next_image_index s = s.current_index)
    ∧ (s.pose.skip_reason ≠ ""
        ∨ (0 ≤ s.pose.novelty ∧ 0 ≤ s.pose.environment_interaction ∧ 0 ≤ s.pose.person_fit) →
      validate_before_navigate s.pose = true
      ∧ (s.image_files ≠ [] → s.current_index < s.image_files.length - 1 →
          next_image_index s = s.current_index + 1)) := by
  constructor
  · rintro ⟨hmiss, hsk⟩
    have hval : validate_before_navigate s.pose = false := by
      unfold validate_before_navigate has_complete_scores
      rw [if_pos hsk]
      simp only [decide_eq_false_iff_not]
      rintro ⟨ha, hb, hc⟩
      rcases hmiss with h | h | h <;> omega
    refine ⟨hval, ?_⟩
    unfold next_image_index
    split
    · rw [hval]
      simp
    · rfl
  · intro hok
    have hval : validate_before_navigate s.pose = true := by
      unfold validate_before_navigate has_complete_scores
      rcases hok with h | h
      · rw [if_neg h]
      · by_cases hsk : s.pose.skip_reason = ""
        · rw [if_pos hsk]
          simp only [decide_eq_true_eq]
          exact h
        · rw [if_neg hsk]
    refine ⟨hval, ?_⟩
    intro h1 h2
    unfold next_image_index
    rw [if_pos ⟨h1, h2⟩, hval]
    simp

/-- Witness for C1: the fresh record has all scores -1 and no skip
reason, so navigation away from the first of two images is refused. -/
theorem validation_gate_c1_witness :
    validate_before_navigate PoseData.init = false
    ∧ next_image_index
        { image_files := ["a.jpg", "b.jpg"], current_index := 0, pose := PoseData.init } = 0 :=
  (validation_gate_c1
    { image_files := ["a.jpg", "b.jpg"], current_index := 0, pose := PoseData.init }).1
    ⟨Or.inl rfl, rfl⟩

/-- Counterexample for C5: when the image move fails after the
annotation write, the triage reports failure but the annotation file
has already been rewritten with the skip reason — its contents are not
the pre-triage contents. -/
theorem triage_atomicity_c5_counterexample :
    (move_to_ignore_category pre_triage_state "blurry" "" false true).2 = false
    ∧ (move_to_ignore_category pre_triage_state "blurry" "" false true).1.ann_file
        ≠ pre_triage_state.ann_file := by
  decide

/-- C5 (amended).  On any triage failure the image stays at its
pre-triage location and the file list and index are unchanged; a failed
annotation write leaves the annotation contents unchanged, but a failed
image move happens after the write, so the annotation has already been
rewritten with the skip reason; the whole sequence (write, move, list
update) completes exactly when neither step fails. -/
theorem triage_failure_policy_c5 (s : TriageState) (category custom_reason : String)
    (write_fails move_fails : Bool) :
    ((move_to_ignore_category s category custom_reason write_fails move_fails).2 = false →
      (move_to_ignore_category s category custom_reason write_fails move_fails).1.image_loc
          = s.image_loc
      ∧ (move_to_ignore_category s category custom_reason write_fails move_fails).1.image_files
          = s.image_files
      ∧ (move_to_ignore_category s category custom_reason write_fails move_fails).1.current_index
          = s.current_index)
    ∧ (write_fails = true →
        (move_to_ignore_category s category custom_reason write_fails move_fails).2 = false
        ∧ (move_to_ignore_category s category custom_reason write_fails move_fails).1.ann_file
            = s.ann_file)
    ∧ (write_fails = false → move_fails = true →
        (move_to_ignore_category s category custom_reason write_fails move_fails).2 = false
        ∧ (move_to_ignore_category s category custom_reason write_fails move_fails).1.ann_file
            = some [({ s.pose with
                skip_reason := if custom_reason ≠ "" then custom_reason else category } : PoseData).to_dict])
    ∧ ((move_to_ignore_category s category custom_reason write_fails move_fails).2 = true
        ↔ write_fails = false ∧ move_fails = false)
    ∧ ((move_to_ignore_category s category custom_reason write_fails move_fails).2 = true →
        (move_to_ignore_category s category custom_reason write_fails move_fails).1.image_loc
            = ImageLoc.ignore category
        ∧ (move_to_ignore_category s category custom_reason write_fails move_fails).1.image_files
            = s.image_files.eraseIdx s.current_index
        ∧ (move_to_ignore_category s category custom_reason write_fails move_fails).1.pose.skip_reason
            = (if custom_reason ≠ "" then custom_reason else category)
        ∧ (move_to_ignore_category s category custom_reason write_fails move_fails).1.ann_file
            = some [({ s.pose with
                skip_reason := if custom_reason ≠ "" then custom_reason else category } : PoseData).to_dict]) := by
  cases write_fails <;> cases move_fails <;>
    simp [move_to_ignore_category]

/-- Witness for C5: a concrete failed image move reports failure with
the annotation already rewritten, and a concrete clean run completes. -/
theorem triage_failure_policy_c5_witness :
    ((move_to_ignore_category pre_triage_state "dark" "" false true).2 = false
      ∧ (move_to_ignore_category pre_triage_state "dark" "" false true).1.ann_file
          = some [({ pre_triage_state.pose with skip_reason := "dark" } : PoseData).to_dict])
    ∧ (move_to_ignore_category pre_triage_state "dark" "" false false).2 = true := by
  have h1 := (triage_failure_policy_c5 pre_triage_state "dark" "" false true).2.2.1 rfl rfl
  have h2 := (triage_failure_policy_c5 pre_triage_state "dark" "" false false).2.2.2.1
  refine ⟨?_, h2.mpr ⟨rfl, rfl⟩⟩
  simpa using h1

section UndoLemmas

lemma update_keypoint_length (p : PoseData) (idx : Nat) (st : Keypoint) :
    (update_keypoint p idx st).keypoints.length = p.keypoints.length := by
  cases h : p.keypoints[idx]? with
  | none => simp [update_keypoint, h]
  | some kp => simp [update_keypoint, h, List.length_set]

/-- Writing a snapshot of the current keypoint back over any
intervening write restores the record exactly. -/
lemma update_update (p : PoseData) (i : Nat) (st d : Keypoint)
    (h : i < p.keypoints.length) :
    update_keypoint (update_keypoint p i st) i (p.keypoints.getD i d) = p := by
  have h0 : p.keypoints[i]? = some p.keypoints[i] := List.getElem?_eq_getElem h
  simp only [update_keypoint, h0]
  have h1 : (p.keypoints.set i
      ({ p.keypoints[i] with x := st.x, y := st.y, visibility := st.visibility }))[i]?
      = some ({ p.keypoints[i] with x := st.x, y := st.y, visibility := st.visibility }) := by
    apply List.getElem?_set_eq_of_lt
    simpa using h
  simp only [h1]
  have hd : p.keypoints.getD i d = p.keypoints[i] := getD_of_lt _ _ _ h
  rw [hd, List.set_set]
  have hkp : ({ { p.keypoints[i] with x := st.x, y := st.y, visibility := st.visibility } with
      x := p.keypoints[i].x, y := p.keypoints[i].y,
      visibility := p.keypoints[i].visibility } : Keypoint) = p.keypoints[i] := rfl
  rw [hkp, set_self _ _ h]

lemma perform_edits_eq (es : List (Nat × Keypoint)) (p : PoseData)
    (u : List KeypointChangeCommand) :
    perform_edits ⟨p, u, []⟩ es
      = ⟨final_pose p es, (cmds_of p es).reverse ++ u, []⟩ := by
  induction es generalizing p u with
  | nil => simp [perform_edits, final_pose, cmds_of]
  | cons e es ih =>
    obtain ⟨i, k⟩ := e
    simp only [perform_edits, perform_edit, UndoStack.push, final_pose, cmds_of]
    rw [ih]
    simp [List.append_assoc]

lemma undoN_edits (es : List (Nat × Keypoint)) (p : PoseData)
    (u r : List KeypointChangeCommand)
    (h : ∀ e ∈ es, e.1 < p.keypoints.length) :
    undoN ⟨final_pose p es, (cmds_of p es).reverse ++ u, r⟩ es.length
      = ⟨p, u, cmds_of p es ++ r⟩ := by
  induction es generalizing p u r with
  | nil => simp [undoN, final_pose, cmds_of]
  | cons e es ih =>
    obtain ⟨i, k⟩ := e
    have hi : i < p.keypoints.length := h (i, k) (List.mem_cons_self _ _)
    have hlen : ∀ e ∈ es, e.1 < (update_keypoint p i k).keypoints.length := by
      intro e he
      rw [update_keypoint_length]
      exact h e (List.mem_cons_of_mem _ he)
    simp only [final_pose, cmds_of, List.reverse_cons, List.length_cons, undoN]
    rw [List.append_assoc, List.singleton_append, ih _ _ _ hlen]
    simp only [UndoStack.applyUndo, KeypointChangeCommand.applyUndo]
    rw [update_update p i k _ hi]
    simp

lemma redoN_edits (es : List (Nat × Keypoint)) (p : PoseData)
    (u : List KeypointChangeCommand) :
    redoN ⟨p, u, cmds_of p es⟩ es.length
      = ⟨final_pose p es, (cmds_of p es).reverse ++ u, []⟩ := by
  induction es generalizing p u with
  | nil => simp [redoN, final_pose, cmds_of]
  | cons e es ih =>
    obtain ⟨i, k⟩ := e
    simp only [final_pose, cmds_of, List.reverse_cons, List.length_cons, redoN,
      UndoStack.applyRedo, KeypointChangeCommand.applyRedo]
    rw [ih]
    simp [List.append_assoc]

end UndoLemmas

/-- C2.  Undo/redo inverse law: for every record and every sequence of
pushed keypoint edits (each command capturing the keypoint's pre-edit
state), undoing once per edit restores the record exactly, redoing once
per edit then restores the fully-edited stack state, and undo on an
empty undo stack or redo on an empty redo stack reports failure and
changes nothing. -/
theorem undo_redo_inverse_c2 (p0 : PoseData) (edits : List (Nat × Keypoint))
    (hvalid : ∀ e ∈ edits, e.1 < p0.keypoints.length) :
    (undoN (perform_edits ⟨p0, [], []⟩ edits) edits.length).pose = p0
    ∧ redoN (undoN (perform_edits ⟨p0, [], []⟩ edits) edits.length) edits.length
        = perform_edits ⟨p0, [], []⟩ edits
    ∧ (∀ s : UndoStack, s.undo_stack = [] → s.applyUndo = (s, false))
    ∧ (∀ s : UndoStack, s.redo_stack = [] → s.applyRedo = (s, false)) := by
  have hpe := perform_edits_eq edits p0 []
  have hu := undoN_edits edits p0 [] [] hvalid
  simp only [List.append_nil] at hpe hu
  refine ⟨?_, ?_, ?_, ?_⟩
  · rw [hpe, hu]
  · have hr := redoN_edits edits p0 []
    simp only [List.append_nil] at hr
    rw [hpe, hu, hr]
  · intro s hs
    rcases s with ⟨pose, us, rs⟩
    simp only [] at hs
    subst hs
    rfl
  · intro s hs
    rcases s with ⟨pose, us, rs⟩
    simp only [] at hs
    subst hs
    rfl

/-- Witness for C2: one concrete nose edit on the fresh record is
undone back to the fresh record. -/
theorem undo_redo_inverse_c2_witness :
    (undoN (perform_edits ⟨PoseData.init, [], []⟩
        [(0, { name := "nose", x := 30, y := 40, visibility := 1 })]) 1).pose
      = PoseData.init :=
  (undo_redo_inverse_c2 PoseData.init
    [(0, { name := "nose", x := 30, y := 40, visibility := 1 })] (by decide)).1

end PoseEditor
